import Mathlib

/-!
Verification development for the plant-recognition automation scripts.

The repository has two variants of the same pipeline:
* `process_plant.py` (namespace `PP`): a tiered resolver — filename hint →
  Gemini text correction, OCR hint → Gemini text correction, PlantNet lookup,
  Gemini vision — ending in a Coda row update.
* `.github/workflows/process_plant.py` (namespace `WF`): an older variant that
  validates raw OCR text directly and falls back to PlantNet.

External services (Google Drive, Vision OCR, Gemini, PlantNet, Coda) are
modelled as oracle fields of an environment record: each field holds the
response the service gives in this run (`Except` for calls that can raise).
The Python glue around those calls is translated directly from the source.
-/

/-! ## Python string primitives (translated from CPython semantics) -/

/-- Whitespace test used by Python `str.strip()` (Unicode whitespace; the
ASCII range plus the common Unicode space characters). -/
def pyIsSpace (c : Char) : Bool :=
  c == ' ' || c == '\t' || c == '\n' || c == '\r' || c == '\x0b' || c == '\x0c' ||
  c == '\x1c' || c == '\x1d' || c == '\x1e' || c == '\x1f' || c == '\x85' || c == '\xa0' ||
  c == ' ' || (decide (' ' ≤ c) && decide (c ≤ ' ')) ||
  c == ' ' || c == ' ' || c == ' ' || c == ' ' || c == '　'

/-- Python `str.strip()` on a character list: drop whitespace from both ends. -/
def pyStripList (l : List Char) : List Char :=
  ((l.dropWhile pyIsSpace).reverse.dropWhile pyIsSpace).reverse

/-- Python `str.strip()`. -/
def pyStripS (s : String) : String :=
  String.mk (pyStripList s.data)

/-- Python `str.lower()` (ASCII-faithful). -/
def pyLowerS (s : String) : String :=
  String.mk (s.data.map Char.toLower)

/-- Python `needle in hay` substring test. -/
def pyIn (needle hay : String) : Bool :=
  decide (needle.data <:+: hay.data)

/-- Python `hay.startswith(needle)`. -/
def pyStartsWith (needle hay : String) : Bool :=
  decide (needle.data <+: hay.data)

/-- Python truthiness of a string: non-empty. -/
def pyTruthyS (s : String) : Bool :=
  !(s == "")

/-- Python truthiness of an optional string: `None` and `""` are falsy. -/
def pyTruthyOpt : Option String → Bool
  | none => false
  | some s => pyTruthyS s

/-- Line-boundary characters recognised by Python `str.splitlines()`. -/
def pyIsLineBreak (c : Char) : Bool :=
  c == '\n' || c == '\r' || c == '\x0b' || c == '\x0c' ||
  c == '\x1c' || c == '\x1d' || c == '\x1e' || c == '\x85' ||
  c == ' ' || c == ' '

/-- Replace each `"\r\n"` pair by a single `'\n'` (Python `splitlines` treats
the pair as one boundary). -/
def collapseCRLF : List Char → List Char
  | [] => []
  | '\r' :: '\n' :: rest => '\n' :: collapseCRLF rest
  | c :: rest => c :: collapseCRLF rest

/-- Split at every line-boundary character; `n` boundaries give `n + 1`
segments. -/
def splitSegs : List Char → List (List Char)
  | [] => [[]]
  | c :: rest =>
    if pyIsLineBreak c then [] :: splitSegs rest
    else
      match splitSegs rest with
      | [] => [[c]]
      | s :: ss => (c :: s) :: ss

/-- Python `str.splitlines()`: split on line boundaries (with `"\r\n"` as one
boundary) and drop the empty segment after a trailing boundary. -/
def pySplitlines (s : String) : List String :=
  let segs := splitSegs (collapseCRLF s.data)
  let segs2 := if segs.getLast? == some [] then segs.dropLast else segs
  segs2.map fun l => String.mk l

/-- Python `" ".join(s.splitlines())`, as used on the OCR text. -/
def joinLines (s : String) : String :=
  String.intercalate " " (pySplitlines s)

/-- Python `str.rfind` of a single character: index of its last occurrence,
`-1` when absent. -/
def pyRfind (c : Char) (l : List Char) : Int :=
  (l.foldl (fun p ch => (p.1 + 1, if ch == c then p.1 else p.2)) ((0 : Int), (-1 : Int))).2

/-- CPython `posixpath.splitext`: split off the extension at the last dot of
the basename, except when the basename consists only of leading dots up to
that position. -/
def pySplitext (p : String) : String × String :=
  let l := p.data
  let sepIndex := pyRfind '/' l
  let dotIndex := pyRfind '.' l
  if sepIndex < dotIndex then
    let between := (l.drop (sepIndex + 1).toNat).take (dotIndex - sepIndex - 1).toNat
    if between.all (fun ch => ch == '.') then (p, "")
    else (String.mk (l.take dotIndex.toNat), String.mk (l.drop dotIndex.toNat))
  else (p, "")

/-- `os.path.splitext(p)[0]` — the stem of a file name. -/
def stemOf (p : String) : String :=
  (pySplitext p).1

namespace PP

/-- Oracle environment for one run of `process_plant.py`.  Each field is the
response of one external collaborator during this run:

* `imageName`, `rowId` — `os.environ.get('IMAGE_NAME')` / `('ROW_ID')`;
* `fetch` — `download_image_from_drive`: the image bytes, or the message of
  the exception it raises (missing `GOOGLE_DRIVE_API_KEY`, transport fault,
  `raise_for_status`);
* `ocr` — the Google Vision call inside `extract_text_from_image`: `.error`
  for any exception (all caught inside that function), `.ok none` when no
  `textAnnotations` are present, `.ok (some d)` for the first annotation's
  `description` (before `.strip()`);
* `geminiKey` — `genai.configure(api_key=os.environ['GEMINI_API_KEY'])`,
  which sits outside the adapters' `try` blocks and so can raise out of them;
* `geminiText` — Gemini's `response.text` (before `.strip()`) for the
  text-correction prompt built from a given hint; `.error` for an exception
  inside the adapter's `try` (caught there);
* `plantnet` — `identify_plant_with_plantnet`: `.error` for an exception
  (transport fault, `raise_for_status`, missing key, malformed payload whose
  field access raises — all caught by `main`'s inner `try`), `.ok none` when
  the JSON has no `results` key, otherwise the list of
  `species.scientificNameWithoutAuthor` values of `results`;
* `geminiVision` — Gemini's `response.text` for the vision prompt, `.error`
  for an exception inside that adapter's `try`. -/
structure Env where
  imageName : Option String
  rowId : Option String
  fetch : Except String String
  ocr : Except Unit (Option String)
  geminiKey : Except String Unit
  geminiText : String → Except Unit String
  plantnet : Except Unit (Option (List String))
  geminiVision : Except Unit String

/-- `extract_text_from_image`: every exception is caught inside and turned
into `""`; a present annotation is returned stripped; otherwise `""`. -/
def extract_text_from_image (env : Env) : String :=
  match env.ocr with
  | .error _ => ""
  | .ok none => ""
  | .ok (some d) => pyStripS d

/-- `is_generic_name`: absent or empty name, stem of length ≤ 3, a digit in
the stem, or a camera/screenshot prefix on the lowered stem. -/
def is_generic_name (file_name : Option String) : Bool :=
  match file_name with
  | none => true
  | some fn =>
    if fn == "" then true
    else
      let name_part := pyLowerS (stemOf fn)
      if name_part.length ≤ 3 || name_part.data.any Char.isDigit then true
      else if ["img_", "dsc_", "image", "screenshot"].any (fun w => pyStartsWith w name_part) then true
      else false

/-- `get_name_from_text_hint`: `genai.configure` is outside the `try` and can
raise (`.error`); an exception from `generate_content` is caught and gives
`None`; otherwise the stripped response is returned, with `None` when it
contains the sentinel word `"Unknown"`. -/
def get_name_from_text_hint (env : Env) (text_hint : String) : Except String (Option String) :=
  match env.geminiKey with
  | .error e => .error e
  | .ok _ =>
    match env.geminiText text_hint with
    | .error _ => .ok none
    | .ok t =>
      let result := pyStripS t
      .ok (if pyIn "Unknown" result then none else some result)

/-- `get_name_from_image`: `genai.configure` can raise (`.error`); an
exception from `generate_content` is caught and gives `None`; otherwise the
stripped response text is returned. -/
def get_name_from_image (env : Env) : Except String (Option String) :=
  match env.geminiKey with
  | .error e => .error e
  | .ok _ =>
    match env.geminiVision with
    | .error _ => .ok none
    | .ok t => .ok (some (pyStripS t))

/-- The guard `image_name and not is_generic_name(image_name)` in `main`. -/
def useFilename (env : Env) : Bool :=
  pyTruthyOpt env.imageName && !(is_generic_name env.imageName)

/-- `text_source` after the filename/OCR `if`/`else` in `main`: the filename
stem when the name is truthy and non-generic, otherwise the joined OCR lines
when the OCR text is truthy, otherwise `None`. -/
def textSourceOf (env : Env) : Option String :=
  if useFilename env then some (stemOf (env.imageName.getD ""))
  else
    let ocr_text := extract_text_from_image env
    if pyTruthyS ocr_text then some (joinLines ocr_text) else none

/-- The hint actually handed to `get_name_from_text_hint` (the body of
`if text_source:`), or `none` when that call is skipped. -/
def hintOf (env : Env) : Option String :=
  let ts := textSourceOf env
  if pyTruthyOpt ts then ts else none

/-- `final_result_string` after the text-hint block of `main` (tiers 1–2):
`.error` when `get_name_from_text_hint` raises out of the tier code. -/
def textHintStep (env : Env) : Except String (Option String) :=
  match hintOf env with
  | none => .ok none
  | some h => get_name_from_text_hint env h

/-- The PlantNet block of `main`: on an exception or a missing/empty
`results` list the current value is kept; otherwise the first result's name
is assigned. -/
def plantnetStep (env : Env) (cur : Option String) : Option String :=
  match env.plantnet with
  | .error _ => cur
  | .ok none => cur
  | .ok (some []) => cur
  | .ok (some (n :: _)) => some n

/-- The final `if not final_result_string:` fallback of `main`. -/
def mkFinal : Option String → String
  | none => "Complete failure: All identification methods failed."
  | some s => if s == "" then "Complete failure: All identification methods failed." else s

/-- Which external steps `main` actually performed in this run, and the hint
given to the text corrector if it was called. -/
structure Trace where
  fetchTried : Bool
  ocrCalled : Bool
  textHintCalled : Option String
  plantnetCalled : Bool
  visionCalled : Bool
deriving DecidableEq

/-- `main` of `process_plant.py`: the computed Resolution string and the
trace of which steps ran.  The outer `try` turns any escaped exception into
`"Critical Workflow Error: " + str(e)`; the PlantNet block has its own inner
`try`; the final fallback replaces a falsy result with the fixed
complete-failure string. -/
def main (env : Env) : String × Trace :=
  match env.fetch with
  | .error e =>
    (mkFinal (some ("Critical Workflow Error: " ++ e)), ⟨true, false, none, false, false⟩)
  | .ok _ =>
    let oc := !(useFilename env)
    let h := hintOf env
    match textHintStep env with
    | .error e => (mkFinal (some ("Critical Workflow Error: " ++ e)), ⟨true, oc, h, false, false⟩)
    | .ok r1 =>
      if pyTruthyOpt r1 then (mkFinal r1, ⟨true, oc, h, false, false⟩)
      else
        let r2 := plantnetStep env r1
        if pyTruthyOpt r2 then (mkFinal r2, ⟨true, oc, h, true, false⟩)
        else
          match get_name_from_image env with
          | .error e => (mkFinal (some ("Critical Workflow Error: " ++ e)), ⟨true, oc, h, true, true⟩)
          | .ok r3 => (mkFinal r3, ⟨true, oc, h, true, true⟩)

/-- Oracle environment for `update_coda_row`: the three `os.environ.get`
credentials and the outcome of `requests.put` (`.ok` = an HTTP status code,
`.error` = the message of a raised transport exception). -/
structure SinkEnv where
  token : Option String
  docId : Option String
  tableId : Option String
  put : Except String Nat

/-- Outcome of `update_coda_row`: skipped (missing credentials or row id,
logged), success logged (2xx), failure logged (other status), or an uncaught
exception from `requests.put` that propagates out of the function. -/
inductive SinkOutcome where
  | skipped
  | success
  | failureLogged
  | raised (msg : String)
deriving DecidableEq

/-- `update_coda_row`: skip and log when any of token, doc id, table id or
row id is falsy; otherwise `requests.put`, logging success for a 2xx status
and failure otherwise.  An exception from `requests.put` is not caught. -/
def update_coda_row (senv : SinkEnv) (row_id : Option String) (result_string : String) : SinkOutcome :=
  if !(pyTruthyOpt senv.token && pyTruthyOpt senv.docId && pyTruthyOpt senv.tableId && pyTruthyOpt row_id) then
    .skipped
  else
    match senv.put with
    | .error e => .raised e
    | .ok status => if 200 ≤ status && status < 300 then .success else .failureLogged

/-- The tail of `main`: the Resolution it computed and the outcome of handing
it to `update_coda_row`. -/
def fullRun (env : Env) (senv : SinkEnv) : String × SinkOutcome :=
  let fr := (main env).1
  (fr, update_coda_row senv env.rowId fr)

end PP

namespace WF

/-- One entry of the PlantNet `results` list, as the workflow variant reads
it: `species.scientificNameWithoutAuthor`, `score` (a JSON number, kept as
its literal text since nothing computes with it), and
`species.commonNames`. -/
structure Species where
  scientificNameWithoutAuthor : String
  score : String
  commonNames : List String
deriving DecidableEq

/-- Oracle environment for one run of the workflow variant
`.github/workflows/process_plant.py`:

* `fetchStatus`, `fetchBody` — status code and content of the Drive GET;
* `ocrRaw` — `pytesseract.image_to_string` output before `.strip()`, or the
  message of an exception raised while opening/reading the image;
* `plantnetStatus` — status code of the PlantNet POST;
* `plantnetResults` — the `results` list of the PlantNet JSON (`none` when
  the key is absent). -/
structure WEnv where
  fetchStatus : Nat
  fetchBody : String
  ocrRaw : Except String String
  plantnetStatus : Nat
  plantnetResults : Option (List Species)

/-- `download_image_from_drive` of the workflow variant: content on status
200, otherwise raises `"Failed to download image: <status>"`. -/
def download_image_from_drive (env : WEnv) : Except String String :=
  if env.fetchStatus == 200 then .ok env.fetchBody
  else .error ("Failed to download image: " ++ toString env.fetchStatus)

/-- `extract_text_from_image` of the workflow variant: OCR text stripped; an
exception propagates (this variant has no inner handler). -/
def extract_text_from_image (env : WEnv) : Except String String :=
  match env.ocrRaw with
  | .error e => .error e
  | .ok t => .ok (pyStripS t)

/-- The `gibberish_patterns` list of `is_valid_plant_name`. -/
def gibberish_patterns : List String :=
  ["screenshot", "image", "photo", "###", "???"]

/-- `is_valid_plant_name`: length at least 3 and at most 100, and the
lowered text contains none of the gibberish patterns. -/
def is_valid_plant_name (text : String) : Bool :=
  if text.length < 3 ∨ 100 < text.length then false
  else
    let text_lower := pyLowerS text
    if gibberish_patterns.any (fun pat => pyIn pat text_lower) then false
    else true

/-- `identify_plant_with_plantnet` of the workflow variant: the parsed JSON
`results` on status 200, otherwise raises `"PlantNet API error: <status>"`. -/
def identify_plant_with_plantnet (env : WEnv) : Except String (Option (List Species)) :=
  if env.plantnetStatus == 200 then .ok env.plantnetResults
  else .error ("PlantNet API error: " ++ toString env.plantnetStatus)

/-- The `result` dict the workflow variant's `main` builds: the OCR-sourced
name (`source: 'ocr'`), the PlantNet best match (`source: 'plantnet'`), the
`source: 'none'` dict for an empty/missing results list, or the
`source: 'error'` dict built by the `except` handler. -/
inductive RecResult where
  | ocr (plant_name : String)
  | plantnet (plant_name : String) (confidence : String) (common_names : List String)
  | nothingFound
  | err (msg : String)
deriving DecidableEq

/-- `main` of the workflow variant: download, OCR, adopt the extracted text
when `is_valid_plant_name` accepts it, otherwise fall back to PlantNet; any
exception becomes the error result. -/
def main (env : WEnv) : RecResult :=
  match download_image_from_drive env with
  | .error e => .err e
  | .ok _ =>
    match extract_text_from_image env with
    | .error e => .err e
    | .ok extracted_text =>
      if is_valid_plant_name extracted_text then .ocr extracted_text
      else
        match identify_plant_with_plantnet env with
        | .error e => .err e
        | .ok results =>
          match results with
          | some (best :: _) => .plantnet best.scientificNameWithoutAuthor best.score best.commonNames
          | some [] => .nothingFound
          | none => .nothingFound

end WF

/-! ## Concrete runs used as witnesses and counterexamples -/

/-- Run where the non-generic filename hint resolves while PlantNet would
return a different name. -/
def envTier1Wins : PP.Env :=
  ⟨some "Monstera_deliciosa.jpg", some "row-1", .ok "bytes", .ok (some "OCR text"),
   .ok (), fun _ => .ok "Monstera deliciosa", .ok (some ["Ficus lyrata"]), .ok "Ficus lyrata"⟩

/-- Run where every tier is unresolved: generic filename, no OCR text, empty
PlantNet result list, Gemini vision call raises (caught inside its adapter). -/
def envAllFail : PP.Env :=
  ⟨some "IMG_2031.jpg", some "row-2", .ok "bytes", .ok none,
   .ok (), fun _ => .ok "Unknown", .ok (some []), .error ()⟩

/-- Run with a non-generic filename whose hint the corrector rejects while
OCR text is available and PlantNet resolves. -/
def envSkipsOcr : PP.Env :=
  ⟨some "Monstera_deliciosa.jpg", some "row-3", .ok "bytes", .ok (some "Rosa canina"),
   .ok (), fun _ => .ok "Unknown", .ok (some ["Ficus lyrata"]), .ok "Ficus lyrata"⟩

/-- Run whose image fetch raises although the non-generic filename hint would
have resolved. -/
def envFetchFails : PP.Env :=
  ⟨some "Monstera_deliciosa.jpg", some "row-4", .error "boom", .ok none,
   .ok (), fun _ => .ok "Monstera deliciosa", .ok (some ["Ficus lyrata"]), .ok "Ficus lyrata"⟩

/-- Run whose image fetch raises a transport fault. -/
def envTransportFault : PP.Env :=
  ⟨some "tulip_field.jpg", some "row-5", .error "connection reset by peer", .ok none,
   .ok (), fun _ => .ok "Tulipa", .ok none, .ok "Tulipa"⟩

/-- Run whose corrector response carries whitespace around the name. -/
def envPaddedResponse : PP.Env :=
  ⟨some "Rosa_canina_hedge.jpg", some "row-6", .ok "bytes", .ok none,
   .ok (), fun _ => .ok " Rosa canina ", .ok none, .ok "Rosa"⟩

/-- Run whose corrector response is whitespace only. -/
def envBlankResponse : PP.Env :=
  ⟨some "Rosa_canina_hedge.jpg", some "row-7", .ok "bytes", .ok none,
   .ok (), fun _ => .ok "   ", .ok none, .ok "Rosa"⟩

/-- Run whose corrector response contains the sentinel inside a sentence. -/
def envSentenceUnknown : PP.Env :=
  ⟨some "Rosa_canina_hedge.jpg", some "row-8", .ok "bytes", .ok none,
   .ok (), fun _ => .ok " I believe this is Unknown to science ", .ok (some ["Ficus lyrata"]), .ok "Rosa"⟩

/-- Run reaching PlantNet with an empty result list. -/
def envEmptyResults : PP.Env :=
  ⟨some "IMG_2031.jpg", some "row-9", .ok "bytes", .ok none,
   .ok (), fun _ => .ok "Unknown", .ok (some []), .ok "Ficus lyrata"⟩

/-- Sink environment with full credentials whose `requests.put` raises a
transport exception. -/
def sinkRaises : PP.SinkEnv :=
  ⟨some "tok", some "doc", some "tbl", .error "Connection refused"⟩

/-- Sink environment with full credentials answering with status 500. -/
def sinkStatus500 : PP.SinkEnv :=
  ⟨some "tok", some "doc", some "tbl", .ok 500⟩

/-- Sink environment with a missing token. -/
def sinkNoToken : PP.SinkEnv :=
  ⟨none, some "doc", some "tbl", .ok 200⟩

/-- Workflow-variant run whose OCR text is `"camera"`. -/
def wenvCamera : WF.WEnv :=
  ⟨200, "bytes", .ok "camera", 200, some [⟨"Ficus lyrata", "0.82", ["fiddle-leaf fig"]⟩]⟩

/-- Workflow-variant run whose OCR text strips to `"Rosa canina"`. -/
def wenvRosa : WF.WEnv :=
  ⟨200, "bytes", .ok " Rosa canina\n", 200, some [⟨"Ficus lyrata", "0.82", ["fiddle-leaf fig"]⟩]⟩

/-! ## Helper lemmas -/

theorem pyTruthyOpt_eq_false {r : Option String} :
    pyTruthyOpt r = false ↔ r = none ∨ r = some "" := by
  cases r with
  | none => simp [pyTruthyOpt]
  | some s => simp [pyTruthyOpt, pyTruthyS]

theorem mkFinal_of_falsy {r : Option String} (h : pyTruthyOpt r = false) :
    PP.mkFinal r = "Complete failure: All identification methods failed." := by
  rcases pyTruthyOpt_eq_false.mp h with rfl | rfl
  · rfl
  · simp [PP.mkFinal]

theorem mkFinal_of_truthy {s : String} (h : s ≠ "") : PP.mkFinal (some s) = s := by
  simp [PP.mkFinal, h]

theorem mkFinal_ne_empty (r : Option String) : PP.mkFinal r ≠ "" := by
  cases r with
  | none => simp [PP.mkFinal]
  | some s =>
    by_cases h : s = ""
    · subst h; simp [PP.mkFinal]
    · simp [PP.mkFinal, h]

theorem critical_string_ne_empty (e : String) : ("Critical Workflow Error: " ++ e) ≠ "" := by
  intro h
  have h2 : ("Critical Workflow Error: " ++ e).data = ([] : List Char) := by rw [h]
  rw [String.data_append, List.append_eq_nil] at h2
  have h3 : ("Critical Workflow Error: " : String).data.length = 0 := by rw [h2.1]; rfl
  simp at h3

theorem main_fetch_error {env : PP.Env} {e : String} (h : env.fetch = .error e) :
    PP.main env = ("Critical Workflow Error: " ++ e, ⟨true, false, none, false, false⟩) := by
  simp only [PP.main, h]
  rw [mkFinal_of_truthy (critical_string_ne_empty e)]

theorem infix_dropWhile_of_head {c : Char} {cs l : List Char} (hc : pyIsSpace c = false)
    (h : (c :: cs) <:+: l) : (c :: cs) <:+: l.dropWhile pyIsSpace := by
  induction l with
  | nil => simp at h
  | cons a t ih =>
    rw [List.dropWhile_cons]
    split
    · next ha =>
      apply ih
      rcases List.infix_cons_iff.mp h with hp | hi
      · rcases List.cons_prefix_cons.mp hp with ⟨rfl, -⟩
        rw [hc] at ha
        cases ha
      · exact hi
    · exact h

theorem infix_pyStrip {u l : List Char} (hne : u ≠ [])
    (hsp : ∀ c ∈ u, pyIsSpace c = false) (h : u <:+: l) : u <:+: pyStripList l := by
  obtain ⟨c, cs, rfl⟩ : ∃ c cs, u = c :: cs := by
    cases u with
    | nil => exact absurd rfl hne
    | cons c cs => exact ⟨c, cs, rfl⟩
  unfold pyStripList
  have h1 : (c :: cs) <:+: l.dropWhile pyIsSpace :=
    infix_dropWhile_of_head (hsp c (by simp)) h
  have h2 : (c :: cs).reverse <:+: (l.dropWhile pyIsSpace).reverse :=
    List.reverse_infix.mpr h1
  obtain ⟨d, ds, hd⟩ : ∃ d ds, (c :: cs).reverse = d :: ds := by
    cases hrev : (c :: cs).reverse with
    | nil => exact absurd (congrArg List.length hrev) (by simp)
    | cons d ds => exact ⟨d, ds, rfl⟩
  rw [hd] at h2
  have hdmem : d ∈ (c :: cs) := by
    have hmem : d ∈ (c :: cs).reverse := by rw [hd]; simp
    exact List.mem_reverse.mp hmem
  have h3 : (d :: ds) <:+: (l.dropWhile pyIsSpace).reverse.dropWhile pyIsSpace :=
    infix_dropWhile_of_head (hsp d hdmem) h2
  rw [← hd] at h3
  have h4 := List.reverse_infix.mpr h3
  simpa using h4

theorem pyStripList_within (l : List Char) : pyStripList l <:+: l := by
  unfold pyStripList
  have h1 : (l.dropWhile pyIsSpace).reverse.dropWhile pyIsSpace <:+ (l.dropWhile pyIsSpace).reverse :=
    List.dropWhile_suffix _
  have h2 := List.reverse_prefix.mpr h1
  rw [List.reverse_reverse] at h2
  exact h2.isInfix.trans (List.dropWhile_suffix pyIsSpace).isInfix

theorem pyIn_eq_true {n s : String} : pyIn n s = true ↔ n.data <:+: s.data := by
  simp [pyIn]

/-! ## Claims -/

/-- C1: the first tier in the fixed priority order that yields a resolved
candidate supplies the final Resolution.  When tier 1 resolves — the
filename is used as hint and the corrector returns a non-empty name — that
name is the Resolution, the hint handed to the corrector is the filename
stem, and the PlantNet and vision tiers are never invoked, whatever Species
Lookup or the Vision Namer would have answered: no re-ranking or confidence
comparison across tiers. -/
theorem C1_first_resolved_tier_wins (env : PP.Env) (d nm : String)
    (hfetch : env.fetch = .ok d)
    (huse : PP.useFilename env = true)
    (hres : PP.textHintStep env = .ok (some nm))
    (hnm : nm ≠ "") :
    (PP.main env).1 = nm ∧
    (PP.main env).2.plantnetCalled = false ∧
    (PP.main env).2.visionCalled = false ∧
    (PP.main env).2.textHintCalled = some (stemOf (env.imageName.getD "")) := by
  have hts : PP.textSourceOf env = some (stemOf (env.imageName.getD "")) := by
    simp [PP.textSourceOf, huse]
  have htru : pyTruthyOpt (some nm) = true := by
    simp [pyTruthyOpt, pyTruthyS, hnm]
  have hhint : PP.hintOf env = some (stemOf (env.imageName.getD "")) := by
    cases hcase : pyTruthyOpt (some (stemOf (env.imageName.getD ""))) with
    | false =>
      exfalso
      have h0 : PP.hintOf env = none := by
        unfold PP.hintOf
        rw [hts]
        simp [hcase]
      have h1 : PP.textHintStep env = .ok none := by
        unfold PP.textHintStep
        rw [h0]
      rw [h1] at hres
      exact Option.noConfusion (Except.ok.inj hres)
    | true =>
      unfold PP.hintOf
      rw [hts]
      simp [hcase]
  simp only [PP.main, hfetch, hres, htru, if_true]
  exact ⟨mkFinal_of_truthy hnm, by trivial, by trivial, hhint⟩

/-- Witness for C1: a run whose non-generic filename `Monstera_deliciosa.jpg`
the corrector resolves to `"Monstera deliciosa"` while PlantNet would answer
`"Ficus lyrata"`; tier 1's name wins and the later tiers are not invoked. -/
theorem C1_witness :
    envTier1Wins.fetch = .ok "bytes" ∧
    PP.useFilename envTier1Wins = true ∧
    PP.textHintStep envTier1Wins = .ok (some "Monstera deliciosa") ∧
    "Monstera deliciosa" ≠ "" ∧
    envTier1Wins.plantnet = .ok (some ["Ficus lyrata"]) ∧
    ((PP.main envTier1Wins).1 = "Monstera deliciosa" ∧
     (PP.main envTier1Wins).2.plantnetCalled = false ∧
     (PP.main envTier1Wins).2.visionCalled = false ∧
     (PP.main envTier1Wins).2.textHintCalled = some (stemOf (envTier1Wins.imageName.getD ""))) :=
  ⟨rfl, by decide, rfl, by decide, rfl,
   C1_first_resolved_tier_wins envTier1Wins "bytes" "Monstera deliciosa" rfl (by decide) rfl (by decide)⟩

/-- C2 counterexample: a run in which all four tiers are unresolved produces
`"Complete failure: All identification methods failed."` with a capital
`"All"`, which is not byte-for-byte the string the claim fixes. -/
theorem C2_cex :
    (PP.main envAllFail).1 = "Complete failure: All identification methods failed." ∧
    (PP.main envAllFail).1 ≠ "Complete failure: all identification methods failed." := by
  constructor
  · rfl
  · decide

/-- C2 (amended): in every run in which the fetch succeeds, the text-hint
step completes with a falsy result, the PlantNet step leaves it falsy and
the vision step completes with a falsy result, the Resolution is exactly
`"Complete failure: All identification methods failed."` (capital `"All"`). -/
theorem C2_amended (env : PP.Env) (d : String) (r1 r3 : Option String)
    (hfetch : env.fetch = .ok d)
    (h1 : PP.textHintStep env = .ok r1)
    (h1f : pyTruthyOpt r1 = false)
    (h2f : pyTruthyOpt (PP.plantnetStep env r1) = false)
    (h3 : PP.get_name_from_image env = .ok r3)
    (h3f : pyTruthyOpt r3 = false) :
    (PP.main env).1 = "Complete failure: All identification methods failed." := by
  simp only [PP.main, hfetch, h1, h1f, h2f, h3, Bool.false_eq_true, if_false]
  exact mkFinal_of_falsy h3f

/-- Witness for C2 (amended): generic filename, no OCR text, empty PlantNet
result list, vision call raises inside its adapter — the Resolution is the
fixed exhaustion string. -/
theorem C2_witness :
    envAllFail.fetch = .ok "bytes" ∧
    PP.textHintStep envAllFail = .ok none ∧
    pyTruthyOpt (PP.plantnetStep envAllFail none) = false ∧
    PP.get_name_from_image envAllFail = .ok none ∧
    (PP.main envAllFail).1 = "Complete failure: All identification methods failed." :=
  ⟨rfl, rfl, rfl, rfl,
   C2_amended envAllFail "bytes" none none rfl rfl rfl rfl rfl rfl⟩

/-- C3 counterexample: a run with the non-generic filename
`Monstera_deliciosa.jpg` whose hint the corrector rejects (`"Unknown"`),
while OCR text (`"Rosa canina"`) is available: the OCR tier is never
evaluated and the resolver falls back directly to Species Lookup, which
supplies the Resolution. -/
theorem C3_cex :
    PP.extract_text_from_image envSkipsOcr = "Rosa canina" ∧
    PP.textHintStep envSkipsOcr = .ok none ∧
    (PP.main envSkipsOcr).2.ocrCalled = false ∧
    (PP.main envSkipsOcr).2.plantnetCalled = true ∧
    (PP.main envSkipsOcr).1 = "Ficus lyrata" :=
  ⟨by decide, rfl, by decide, by decide, by decide⟩

/-- C3 (amended): the OCR tier is consulted exactly when the filename hint
is not used (name absent, falsy, or generic); when the text-hint step
completes unresolved — in particular when a non-generic filename hint was
used and the corrector rejected it — the resolver proceeds directly to
Species Lookup, with no separate OCR tier in between. -/
theorem C3_amended (env : PP.Env) (d : String) (r1 : Option String)
    (hfetch : env.fetch = .ok d)
    (h1 : PP.textHintStep env = .ok r1)
    (h1f : pyTruthyOpt r1 = false) :
    (PP.main env).2.ocrCalled = !(PP.useFilename env) ∧
    (PP.main env).2.plantnetCalled = true := by
  simp only [PP.main, hfetch, h1, h1f, Bool.false_eq_true, if_false]
  cases h2 : pyTruthyOpt (PP.plantnetStep env r1) with
  | false =>
    simp only [h2, Bool.false_eq_true, if_false]
    cases h3 : PP.get_name_from_image env with
    | error e => exact ⟨by trivial, by trivial⟩
    | ok r3 => exact ⟨by trivial, by trivial⟩
  | true =>
    simp only [h2, if_true]
    exact ⟨by trivial, by trivial⟩

/-- Witness for C3 (amended) at the same concrete run as the counterexample:
a used filename hint that the corrector rejects sends the resolver straight
to PlantNet, with the OCR flag mirroring the filename decision. -/
theorem C3_witness :
    envSkipsOcr.fetch = .ok "bytes" ∧
    PP.textHintStep envSkipsOcr = .ok none ∧
    pyTruthyOpt none = false ∧
    ((PP.main envSkipsOcr).2.ocrCalled = !(PP.useFilename envSkipsOcr) ∧
     (PP.main envSkipsOcr).2.plantnetCalled = true) :=
  ⟨rfl, rfl, rfl, C3_amended envSkipsOcr "bytes" none rfl rfl rfl⟩

/-- C4 counterexample: a run whose image fetch raises `"boom"` although the
filename hint is non-generic and the corrector would resolve it: the
Resolution is the critical-error string, not the resolved name, and the
corrector is never consulted. -/
theorem C4_cex :
    PP.useFilename envFetchFails = true ∧
    PP.get_name_from_text_hint envFetchFails "Monstera_deliciosa" = .ok (some "Monstera deliciosa") ∧
    (PP.main envFetchFails).1 = "Critical Workflow Error: boom" ∧
    (PP.main envFetchFails).2.textHintCalled = none :=
  ⟨by decide, rfl, by decide, by decide⟩

/-- C4 (amended): image bytes are fetched at the start of the run, before
every tier including the filename-hint tier; when the fetch raises, the
Resolution is the critical-error string and no tier is evaluated, even if a
non-generic filename hint would have resolved. -/
theorem C4_amended (env : PP.Env) (e : String) (hf : env.fetch = .error e) :
    (PP.main env).1 = "Critical Workflow Error: " ++ e ∧
    (PP.main env).2.textHintCalled = none ∧
    (PP.main env).2.ocrCalled = false ∧
    (PP.main env).2.plantnetCalled = false ∧
    (PP.main env).2.visionCalled = false := by
  rw [main_fetch_error hf]
  exact ⟨rfl, rfl, rfl, rfl, rfl⟩

/-- Witness for C4 (amended) at the concrete fetch-failure run. -/
theorem C4_witness :
    envFetchFails.fetch = .error "boom" ∧
    ((PP.main envFetchFails).1 = "Critical Workflow Error: boom" ∧
     (PP.main envFetchFails).2.textHintCalled = none ∧
     (PP.main envFetchFails).2.ocrCalled = false ∧
     (PP.main envFetchFails).2.plantnetCalled = false ∧
     (PP.main envFetchFails).2.visionCalled = false) :=
  ⟨rfl, C4_amended envFetchFails "boom" rfl⟩

/-- C5: when an exception with message `e` escapes the image fetch before
any tier runs, the Resolution is `"Critical Workflow Error: " ++ e` and the
run completes by handing exactly that string to the sink
(`update_coda_row`). -/
theorem C5_critical_error_reaches_sink (env : PP.Env) (senv : PP.SinkEnv) (e : String)
    (hf : env.fetch = .error e) :
    (PP.fullRun env senv).1 = "Critical Workflow Error: " ++ e ∧
    (PP.fullRun env senv).2 = PP.update_coda_row senv env.rowId ("Critical Workflow Error: " ++ e) := by
  simp only [PP.fullRun, main_fetch_error hf]
  exact ⟨by trivial, by trivial⟩

/-- Witness for C5: a transport fault in the fetch produces the
critical-error Resolution which is then handed to the sink. -/
theorem C5_witness :
    envTransportFault.fetch = .error "connection reset by peer" ∧
    ((PP.fullRun envTransportFault sinkStatus500).1 =
      "Critical Workflow Error: connection reset by peer" ∧
     (PP.fullRun envTransportFault sinkStatus500).2 =
      PP.update_coda_row sinkStatus500 envTransportFault.rowId
        ("Critical Workflow Error: connection reset by peer")) :=
  ⟨rfl, C5_critical_error_reaches_sink envTransportFault sinkStatus500 "connection reset by peer" rfl⟩

/-- C6 counterexample: two non-empty corrector responses without the
sentinel word.  `" Rosa canina "` is accepted only after stripping — the
adopted name differs from the verbatim response text — and the whitespace
response `"   "` yields the empty string rather than a resolved name. -/
theorem C6_cex :
    PP.get_name_from_text_hint envPaddedResponse "any hint" = .ok (some "Rosa canina") ∧
    (" Rosa canina " : String) ≠ "Rosa canina" ∧
    PP.get_name_from_text_hint envBlankResponse "any hint" = .ok (some "") :=
  ⟨rfl, by decide, rfl⟩

/-- C6 (amended): a corrector response containing the substring `"Unknown"`
anywhere is unresolved; any other response is stripped of surrounding
whitespace and the stripped text is handed back — a resolved name when
non-empty, the empty string (treated downstream as unresolved) when the
response was whitespace only. -/
theorem C6_amended (env : PP.Env) (h t : String)
    (hkey : env.geminiKey = .ok ())
    (hresp : env.geminiText h = .ok t) :
    (("Unknown" : String).data <:+: t.data →
      PP.get_name_from_text_hint env h = .ok none) ∧
    (¬ (("Unknown" : String).data <:+: t.data) →
      PP.get_name_from_text_hint env h = .ok (some (pyStripS t))) := by
  have hune : ("Unknown" : String).data ≠ [] := by decide
  have huns : ∀ c ∈ ("Unknown" : String).data, pyIsSpace c = false := by decide
  constructor
  · intro hin
    have hstrip : ("Unknown" : String).data <:+: pyStripList t.data :=
      infix_pyStrip hune huns hin
    have hpy : pyIn "Unknown" (pyStripS t) = true := by
      rw [pyIn_eq_true]
      exact hstrip
    unfold PP.get_name_from_text_hint
    rw [hkey, hresp]
    simp [hpy]
  · intro hnin
    have hnin2 : ¬ (("Unknown" : String).data <:+: pyStripList t.data) := fun hc =>
      hnin (hc.trans (pyStripList_within t.data))
    have hpy : pyIn "Unknown" (pyStripS t) = false := by
      simp only [pyIn, decide_eq_false_iff_not]
      exact hnin2
    unfold PP.get_name_from_text_hint
    rw [hkey, hresp]
    simp [hpy]

/-- Witness for C6 (amended): a response carrying the sentinel inside a
sentence is unresolved. -/
theorem C6_witness :
    envSentenceUnknown.geminiKey = .ok () ∧
    envSentenceUnknown.geminiText "hint" = .ok " I believe this is Unknown to science " ∧
    ((("Unknown" : String).data <:+: (" I believe this is Unknown to science " : String).data →
       PP.get_name_from_text_hint envSentenceUnknown "hint" = .ok none) ∧
     (¬ (("Unknown" : String).data <:+: (" I believe this is Unknown to science " : String).data) →
       PP.get_name_from_text_hint envSentenceUnknown "hint" =
         .ok (some (pyStripS " I believe this is Unknown to science ")))) :=
  ⟨rfl, rfl, C6_amended envSentenceUnknown "hint" " I believe this is Unknown to science " rfl rfl⟩

/-- Characterisation of the workflow variant's validity check: length within
`[3, 100]` and no gibberish pattern occurs inside the lowered text. -/
theorem is_valid_plant_name_iff (u : String) :
    WF.is_valid_plant_name u = true ↔
      3 ≤ u.length ∧ u.length ≤ 100 ∧
        ∀ pat ∈ WF.gibberish_patterns, ¬ (pat.data <:+: (pyLowerS u).data) := by
  unfold WF.is_valid_plant_name
  by_cases hlen : u.length < 3 ∨ 100 < u.length
  · rw [if_pos hlen]
    constructor
    · intro hv; cases hv
    · rintro ⟨h3, h100, -⟩
      exfalso
      rcases hlen with hl | hl <;> omega
  · rw [if_neg hlen]
    push_neg at hlen
    by_cases hany : (WF.gibberish_patterns.any fun pat => pyIn pat (pyLowerS u)) = true
    · simp only [hany, if_true]
      constructor
      · intro hv; cases hv
      · rintro ⟨-, -, hno⟩
        exfalso
        rw [List.any_eq_true] at hany
        rcases hany with ⟨pat, hpat, hp⟩
        exact hno pat hpat (pyIn_eq_true.mp hp)
    · have hany2 : (WF.gibberish_patterns.any fun pat => pyIn pat (pyLowerS u)) = false :=
        eq_false_of_ne_true hany
      simp only [hany2, Bool.false_eq_true, if_false]
      constructor
      · intro _
        refine ⟨by omega, by omega, ?_⟩
        intro pat hpat hinf
        apply hany
        rw [List.any_eq_true]
        exact ⟨pat, hpat, pyIn_eq_true.mpr hinf⟩
      · intro _; trivial

/-- C7 counterexample: `"camera"` contains the claim's denylist word
`camera`, yet the code accepts it and adopts it as the OCR-sourced name;
`"ab"` is non-empty, short and clean under the claim's policy, yet the code
rejects it (length below 3). -/
theorem C7_cex :
    WF.is_valid_plant_name "camera" = true ∧
    WF.main wenvCamera = .ocr "camera" ∧
    WF.is_valid_plant_name "ab" = false :=
  ⟨by decide, by decide, by decide⟩

/-- C7 (amended): in the direct-text variant a hint is valid exactly when
its length is between 3 and 100 and its lowered text contains none of the
substrings `screenshot`, `image`, `photo`, `###`, `???`; and in a run whose
download succeeds and whose OCR yields `t`, the stripped text is adopted as
the OCR-sourced plant name exactly when it is valid under that policy. -/
theorem C7_amended (u t : String) (env : WF.WEnv)
    (hfs : env.fetchStatus = 200)
    (hocr : env.ocrRaw = .ok t) :
    (WF.is_valid_plant_name u = true ↔
      3 ≤ u.length ∧ u.length ≤ 100 ∧
        ∀ pat ∈ WF.gibberish_patterns, ¬ (pat.data <:+: (pyLowerS u).data)) ∧
    (WF.main env = .ocr (pyStripS t) ↔ WF.is_valid_plant_name (pyStripS t) = true) := by
  refine ⟨is_valid_plant_name_iff u, ?_⟩
  have hdl : WF.download_image_from_drive env = .ok env.fetchBody := by
    unfold WF.download_image_from_drive
    rw [hfs]
    rfl
  have hex : WF.extract_text_from_image env = .ok (pyStripS t) := by
    unfold WF.extract_text_from_image
    rw [hocr]
  constructor
  · intro hm
    by_cases hv : WF.is_valid_plant_name (pyStripS t) = true
    · exact hv
    · exfalso
      have hv2 : WF.is_valid_plant_name (pyStripS t) = false := eq_false_of_ne_true hv
      unfold WF.main at hm
      rw [hdl, hex] at hm
      simp only [hv2, Bool.false_eq_true, if_false] at hm
      by_cases hpn : (env.plantnetStatus == 200) = true
      · unfold WF.identify_plant_with_plantnet at hm
        simp only [hpn, if_true] at hm
        cases hres : env.plantnetResults with
        | none => rw [hres] at hm; simp at hm
        | some l =>
          rw [hres] at hm
          cases l with
          | nil => simp at hm
          | cons b bs => simp at hm
      · unfold WF.identify_plant_with_plantnet at hm
        simp only [hpn, Bool.false_eq_true, if_false] at hm
        simp at hm
  · intro hv
    unfold WF.main
    rw [hdl, hex]
    simp only [hv, if_true]

/-- Witness for C7 (amended): OCR text `" Rosa canina\n"` strips to
`"Rosa canina"`, which the validity check accepts and the run adopts as the
OCR-sourced name. -/
theorem C7_witness :
    wenvRosa.fetchStatus = 200 ∧
    wenvRosa.ocrRaw = .ok " Rosa canina\n" ∧
    ((WF.is_valid_plant_name "Rosa canina" = true ↔
      3 ≤ ("Rosa canina" : String).length ∧ ("Rosa canina" : String).length ≤ 100 ∧
        ∀ pat ∈ WF.gibberish_patterns, ¬ (pat.data <:+: (pyLowerS "Rosa canina").data)) ∧
     (WF.main wenvRosa = .ocr (pyStripS " Rosa canina\n") ↔
      WF.is_valid_plant_name (pyStripS " Rosa canina\n") = true)) :=
  ⟨rfl, rfl, C7_amended "Rosa canina" " Rosa canina\n" wenvRosa rfl rfl⟩

/-- C8: in a run whose fetch succeeds and whose text-hint step completes
unresolved, a PlantNet response with an empty `results` list leaves the
candidate unchanged (unresolved, no raised error) and the resolver proceeds
to the vision tier. -/
theorem C8_empty_results_unresolved (env : PP.Env) (d : String) (r1 : Option String)
    (hfetch : env.fetch = .ok d)
    (h1 : PP.textHintStep env = .ok r1)
    (h1f : pyTruthyOpt r1 = false)
    (hpn : env.plantnet = .ok (some [])) :
    PP.plantnetStep env r1 = r1 ∧
    (PP.main env).2.plantnetCalled = true ∧
    (PP.main env).2.visionCalled = true := by
  have hstep : PP.plantnetStep env r1 = r1 := by
    unfold PP.plantnetStep
    rw [hpn]
  refine ⟨hstep, ?_, ?_⟩ <;>
  · simp only [PP.main, hfetch, h1, hstep, h1f, Bool.false_eq_true, if_false]
    cases h3 : PP.get_name_from_image env with
    | error e => trivial
    | ok r3 => trivial

/-- Witness for C8: generic filename, no OCR text, PlantNet returns an empty
result list, and the run moves on to the vision tier. -/
theorem C8_witness :
    envEmptyResults.fetch = .ok "bytes" ∧
    PP.textHintStep envEmptyResults = .ok none ∧
    pyTruthyOpt none = false ∧
    envEmptyResults.plantnet = .ok (some []) ∧
    (PP.plantnetStep envEmptyResults none = none ∧
     (PP.main envEmptyResults).2.plantnetCalled = true ∧
     (PP.main envEmptyResults).2.visionCalled = true) :=
  ⟨rfl, rfl, rfl, rfl, C8_empty_results_unresolved envEmptyResults "bytes" none rfl rfl rfl rfl⟩

/-- Every branch of `main` produces its Resolution through `mkFinal`. -/
theorem main_fst_mkFinal (env : PP.Env) : ∃ r, (PP.main env).1 = PP.mkFinal r := by
  unfold PP.main
  cases hf : env.fetch with
  | error e => exact ⟨some ("Critical Workflow Error: " ++ e), rfl⟩
  | ok d =>
    simp only []
    cases hs : PP.textHintStep env with
    | error e => exact ⟨some ("Critical Workflow Error: " ++ e), rfl⟩
    | ok r1 =>
      simp only []
      by_cases h1 : pyTruthyOpt r1 = true
      · rw [if_pos h1]
        exact ⟨r1, rfl⟩
      · rw [if_neg h1]
        by_cases h2 : pyTruthyOpt (PP.plantnetStep env r1) = true
        · rw [if_pos h2]
          exact ⟨PP.plantnetStep env r1, rfl⟩
        · rw [if_neg h2]
          cases h3 : PP.get_name_from_image env with
          | error e => exact ⟨some ("Critical Workflow Error: " ++ e), rfl⟩
          | ok r3 => exact ⟨r3, rfl⟩

/-- C9 counterexample: when the corrector service answers with whitespace
only, the adapter hands back the empty string — a present, empty candidate
value, neither a non-empty name nor an absent value. -/
theorem C9_cex :
    PP.get_name_from_text_hint envBlankResponse "another hint" = .ok (some "") :=
  rfl

/-- C9 (amended): an adapter can hand back the empty string (when the
corrector's stripped response text is empty), but the resolver's truthiness
check treats the empty string exactly like an absent value, so the final
Resolution is never the empty string. -/
theorem C9_amended (env : PP.Env) :
    (PP.main env).1 ≠ "" ∧ PP.mkFinal (some "") = PP.mkFinal none := by
  constructor
  · obtain ⟨r, hr⟩ := main_fst_mkFinal env
    rw [hr]
    exact mkFinal_ne_empty r
  · rfl

/-- Witness for C9 (amended) at the whitespace-response run. -/
theorem C9_witness :
    (PP.main envBlankResponse).1 ≠ "" ∧ PP.mkFinal (some "") = PP.mkFinal none :=
  C9_amended envBlankResponse

/-- C10 counterexample: with full credentials and row id present, a
transport exception raised by `requests.put` propagates out of
`update_coda_row` uncaught — the sink write can fail the run. -/
theorem C10_cex :
    PP.update_coda_row sinkRaises (some "row-7") "Rosa canina" = .raised "Connection refused" :=
  rfl

/-- C10 (amended): when the row id or any destination credential is missing
the sink skips writing and logs; whenever the `PUT` transport completes with
a status code the sink only logs (skip, success or failure — it never
raises), and the sink call never alters the computed Resolution.  Only a
transport-level exception from the `PUT` itself propagates and aborts the
run. -/
theorem C10_amended (env : PP.Env) (senv : PP.SinkEnv) (s : String) (c : Nat)
    (hput : senv.put = .ok c) :
    (pyTruthyOpt env.rowId = false → PP.update_coda_row senv env.rowId s = .skipped) ∧
    (pyTruthyOpt senv.token = false → PP.update_coda_row senv env.rowId s = .skipped) ∧
    (PP.update_coda_row senv env.rowId s = .skipped ∨
     PP.update_coda_row senv env.rowId s = .success ∨
     PP.update_coda_row senv env.rowId s = .failureLogged) ∧
    (PP.fullRun env senv).1 = (PP.main env).1 := by
  refine ⟨?_, ?_, ?_, rfl⟩
  · intro hrow
    unfold PP.update_coda_row
    rw [hrow]
    simp
  · intro htok
    unfold PP.update_coda_row
    rw [htok]
    simp
  · unfold PP.update_coda_row
    by_cases hcred : (pyTruthyOpt senv.token && pyTruthyOpt senv.docId &&
        pyTruthyOpt senv.tableId && pyTruthyOpt env.rowId) = true
    · rw [hcred]
      simp only [Bool.not_true, Bool.false_eq_true, if_false, hput]
      by_cases h2xx : (200 ≤ c ∧ c < 300)
      · right; left
        simp [h2xx.1, h2xx.2]
      · right; right
        rcases Nat.lt_or_ge c 200 with hlt | hge
        · simp [Nat.not_le.mpr hlt]
        · have hge300 : 300 ≤ c := by
            rcases Nat.lt_or_ge c 300 with h3 | h3
            · exact absurd ⟨hge, h3⟩ h2xx
            · exact h3
          simp [hge, Nat.not_lt.mpr hge300]
    · left
      have hcred2 := eq_false_of_ne_true hcred
      rw [hcred2]
      simp

/-- Witness for C10 (amended): the sink answers status 500 — the outcome is
logged failure, one of the non-raising outcomes, and the Resolution is
unchanged. -/
theorem C10_witness :
    sinkStatus500.put = .ok 500 ∧
    ((pyTruthyOpt envTier1Wins.rowId = false →
       PP.update_coda_row sinkStatus500 envTier1Wins.rowId "x" = .skipped) ∧
     (pyTruthyOpt sinkStatus500.token = false →
       PP.update_coda_row sinkStatus500 envTier1Wins.rowId "x" = .skipped) ∧
     (PP.update_coda_row sinkStatus500 envTier1Wins.rowId "x" = .skipped ∨
      PP.update_coda_row sinkStatus500 envTier1Wins.rowId "x" = .success ∨
      PP.update_coda_row sinkStatus500 envTier1Wins.rowId "x" = .failureLogged) ∧
     (PP.fullRun envTier1Wins sinkStatus500).1 = (PP.main envTier1Wins).1) :=
  ⟨rfl, C10_amended envTier1Wins sinkStatus500 "x" 500 rfl⟩
